import Mathlib

/-!
Shallow embedding of the signal-processing core of
`xaucopysignal_v5_pending_orders.py` (a Telegram-to-MT5 copy-trading bot for
pending gold orders), together with proofs checking the natural-language
specification against it.

Messages are lists of characters.  The compiled regular expressions of
`MessageProcessor` are embedded as executable matchers: each Python pattern
becomes one Lean function that attempts a match at one position, and
`searchPos` scans positions left to right exactly as `re.search` does.
Python floats are modelled as exact rationals (`ℚ`); the numeric token
`[0-9]+\.?[0-9]*` is parsed into `mkRat` so that every concrete run of the
extractor is kernel-computable.

External collaborators (MetaTrader 5, Telegram) are modelled as explicit
inputs: the venue tick, symbol metadata, and the per-ticket outcome of
`order_send` are parameters, and functions return the request records the
code would submit.
-/

/-- Python `\w` (ASCII range): letters, digits and underscore. -/
def isWordChar (c : Char) : Bool := c.isAlphanum || c = '_'

/-- Lowercasing of a message, modelling `re.IGNORECASE` on ASCII input. -/
def py_lower (s : List Char) : List Char := s.map Char.toLower

/-- Python `str.strip`: drop leading and trailing whitespace. -/
def py_strip (s : List Char) : List Char :=
  ((s.dropWhile Char.isWhitespace).reverse.dropWhile Char.isWhitespace).reverse

/-- Word boundary `\b` immediately before a word character, given the
character preceding the current position (`none` at the start of the text). -/
def boundaryBefore (prev : Option Char) : Bool :=
  match prev with
  | none => true
  | some c => !isWordChar c

/-- Word boundary `\b` immediately after a word character, given the rest of
the text. -/
def boundaryAfter (s : List Char) : Bool :=
  match s with
  | [] => true
  | c :: _ => !isWordChar c

/-- Match a literal character sequence, returning the rest of the input. -/
def lit : List Char → List Char → Option (List Char)
  | [], s => some s
  | _ :: _, [] => none
  | p :: ps, c :: cs => if c = p then lit ps cs else none

/-- Regex `\s*`: greedily drop whitespace (deterministic; in every embedded
pattern the token after `\s*` can never match a whitespace character). -/
def spaces0 (s : List Char) : List Char := s.dropWhile Char.isWhitespace

/-- Regex `\s+`: at least one whitespace character, then greedily more. -/
def spaces1 (s : List Char) : Option (List Char) :=
  match s with
  | [] => none
  | c :: rest => if c.isWhitespace then some (rest.dropWhile Char.isWhitespace) else none

/-- Regex `c?` where the following pattern token can never match `c`
(deterministic greedy consumption is then exact). -/
def optChar (c : Char) (s : List Char) : List Char :=
  match s with
  | [] => []
  | x :: rest => if x = c then rest else s

/-- Regex `c?` with full backtracking: try consuming one `c`, and if the
continuation fails retry without consuming. -/
def optCharThen (c : Char) (k : List Char → Option α) (s : List Char) : Option α :=
  match s with
  | [] => k []
  | x :: rest =>
    if x = c then
      match k rest with
      | some a => some a
      | none => k (x :: rest)
    else k (x :: rest)

/-- Numeric value of a digit string. -/
def digitsVal (ds : List Char) : ℕ :=
  ds.foldl (fun acc c => 10 * acc + (c.toNat - ('0').toNat)) 0

/-- Value of `float(intPart ++ "." ++ fracPart)`, as an exact rational. -/
def ratNum (intPart fracPart : List Char) : ℚ :=
  mkRat (digitsVal intPart * 10 ^ fracPart.length + digitsVal fracPart) (10 ^ fracPart.length)

/-- Regex capture `([0-9]+\.?[0-9]*)`: greedy digits, an optional dot, greedy
fraction digits; returns the parsed value and the rest of the input. -/
def matchNumber (s : List Char) : Option (ℚ × List Char) :=
  let ds := s.takeWhile Char.isDigit
  if ds.isEmpty then none
  else
    match s.drop ds.length with
    | c :: r2 =>
      if c = '.' then
        let fs := r2.takeWhile Char.isDigit
        some (ratNum ds fs, r2.drop fs.length)
      else some (ratNum ds [], c :: r2)
    | [] => some (ratNum ds [], [])

/-- Scan positions left to right, as `re.search` does: try the pattern at
each position (the pattern also sees the previous character, for `\b`), and
return the first success. -/
def searchPos (f : Option Char → List Char → Option α) : Option Char → List Char → Option α
  | prev, [] => f prev []
  | prev, c :: rest =>
    match f prev (c :: rest) with
    | some a => some a
    | none => searchPos f (some c) rest

/-- Regex alternation `(?:b₁|b₂|…)` followed by a continuation `k`, with the
backtracking `re` applies: branches are tried in order and a branch is
abandoned when the continuation fails after it. -/
def tryAlts (k : List Char → Option α) : List (List Char → Option (List Char)) → List Char → Option α
  | [], _ => none
  | b :: bs, s =>
    match b s with
    | some s2 =>
      match k s2 with
      | some a => some a
      | none => tryAlts k bs s
    | none => tryAlts k bs s

/-- Literal words separated by `\s+`, then a continuation. -/
def seqWords (k : List Char → Option α) : List (List Char) → List Char → Option α
  | [], s => k s
  | w :: ws, s =>
    match lit w s with
    | some s1 =>
      match spaces1 s1 with
      | some s2 => seqWords k ws s2
      | none => none
    | none => none

/-- First-some choice, modelling trying one compiled pattern after another. -/
def orO (a b : Option α) : Option α :=
  match a with
  | some x => some x
  | none => b

/-- Regex tail `\s*:?\s*([0-9]+\.?[0-9]*)`, shared by the entry, SL and TP
patterns. -/
def colonNum (s : List Char) : Option ℚ :=
  (matchNumber (spaces0 (optChar ':' (spaces0 s)))).map Prod.fst

/-- The long vocabulary of `TRADE_TYPE_PATTERNS['buy']`. -/
def buyWords : List (List Char) :=
  [("buy").toList, ("long").toList, ("bullish").toList, ("compra").toList, ("largo").toList]

/-- The short vocabulary of `TRADE_TYPE_PATTERNS['sell']`. -/
def sellWords : List (List Char) :=
  [("sell").toList, ("short").toList, ("bearish").toList, ("venta").toList, ("corto").toList]

/-- Try `\b(w₁|w₂|…)\b` at one position. -/
def wordAltAt (ws : List (List Char)) (prev : Option Char) (s : List Char) : Option Unit :=
  if boundaryBefore prev then
    if ws.any (fun w =>
        match lit w s with
        | some rest => boundaryAfter rest
        | none => false) then some () else none
  else none

/-- Whole-word search for any word of a vocabulary (case-insensitive). -/
def wordFound (ws : List (List Char)) (msg : List Char) : Bool :=
  (searchPos (wordAltAt ws) none (py_lower msg)).isSome

/-- IMMEDIATE_PATTERNS[0]: `\b(buy|sell)\s+(gold|xauusd)\s+now\b`. -/
def immP1 (prev : Option Char) (s : List Char) : Option Unit :=
  if boundaryBefore prev then
    tryAlts (fun s1 =>
      match spaces1 s1 with
      | some s2 =>
        tryAlts (fun s3 =>
          match spaces1 s3 with
          | some s4 =>
            match lit (("now").toList) s4 with
            | some s5 => if boundaryAfter s5 then some () else none
            | none => none
          | none => none)
          [lit (("gold").toList), lit (("xauusd").toList)] s2
      | none => none)
      [lit (("buy").toList), lit (("sell").toList)] s
  else none

/-- IMMEDIATE_PATTERNS[1]: `\bgold\s+(buy|sell)\s+now\b`. -/
def immP2 (prev : Option Char) (s : List Char) : Option Unit :=
  if boundaryBefore prev then
    match lit (("gold").toList) s with
    | some s1 =>
      match spaces1 s1 with
      | some s2 =>
        tryAlts (fun s3 =>
          match spaces1 s3 with
          | some s4 =>
            match lit (("now").toList) s4 with
            | some s5 => if boundaryAfter s5 then some () else none
            | none => none
          | none => none)
          [lit (("buy").toList), lit (("sell").toList)] s2
      | none => none
    | none => none
  else none

/-- IMMEDIATE_PATTERNS[2]: `\bscalping\s+(buy|sell)\b`. -/
def immP3 (prev : Option Char) (s : List Char) : Option Unit :=
  if boundaryBefore prev then
    match lit (("scalping").toList) s with
    | some s1 =>
      match spaces1 s1 with
      | some s2 =>
        tryAlts (fun s3 => if boundaryAfter s3 then some () else none)
          [lit (("buy").toList), lit (("sell").toList)] s2
      | none => none
    | none => none
  else none

/-- IMMEDIATE_PATTERNS[3]: `\blets?\s+scalping\b`. -/
def immP4 (prev : Option Char) (s : List Char) : Option Unit :=
  if boundaryBefore prev then
    match lit (("let").toList) s with
    | some s1 =>
      optCharThen 's' (fun s2 =>
        match spaces1 s2 with
        | some s3 =>
          match lit (("scalping").toList) s3 with
          | some s4 => if boundaryAfter s4 then some () else none
          | none => none
        | none => none) s1
    | none => none
  else none

/-- MessageProcessor.is_immediate_execution_message: try the four immediate
patterns in order; any hit means the message is ignored. -/
def is_immediate_execution_message (msg : List Char) : Bool :=
  let m := py_lower msg
  (searchPos immP1 none m).isSome || (searchPos immP2 none m).isSome ||
    (searchPos immP3 none m).isSome || (searchPos immP4 none m).isSome

/-- Shared tail `(?:to|at|…)\s+([0-9]+\.?[0-9]*)` of the SL-update patterns. -/
def toAtNum (kws : List (List Char)) (s : List Char) : Option ℚ :=
  tryAlts (fun s1 =>
    match spaces1 s1 with
    | some s2 => (matchNumber s2).map Prod.fst
    | none => none) (kws.map lit) s

/-- SL_UPDATE_PATTERNS[0]: `move\s+sl\s+(?:to|at)\s+(num)`. -/
def slUpdP1 (_ : Option Char) (s : List Char) : Option ℚ :=
  seqWords (toAtNum [("to").toList, ("at").toList]) [("move").toList, ("sl").toList] s

/-- SL_UPDATE_PATTERNS[1]: `update\s+sl\s+(?:to|at)\s+(num)`. -/
def slUpdP2 (_ : Option Char) (s : List Char) : Option ℚ :=
  seqWords (toAtNum [("to").toList, ("at").toList]) [("update").toList, ("sl").toList] s

/-- SL_UPDATE_PATTERNS[2]: `sl\s+(?:to|at)\s+(num)`. -/
def slUpdP3 (_ : Option Char) (s : List Char) : Option ℚ :=
  seqWords (toAtNum [("to").toList, ("at").toList]) [("sl").toList] s

/-- SL_UPDATE_PATTERNS[3]: `new\s+sl\s+(?:to|at|is)\s+(num)`. -/
def slUpdP4 (_ : Option Char) (s : List Char) : Option ℚ :=
  seqWords (toAtNum [("to").toList, ("at").toList, ("is").toList]) [("new").toList, ("sl").toList] s

/-- SL_UPDATE_PATTERNS[4]: `change\s+sl\s+(?:to|at)\s+(num)`. -/
def slUpdP5 (_ : Option Char) (s : List Char) : Option ℚ :=
  seqWords (toAtNum [("to").toList, ("at").toList]) [("change").toList, ("sl").toList] s

/-- MessageProcessor.is_sl_update_message: try the five SL-update patterns in
order and return the captured new stop-loss value of the first match.  (The
`float` conversion of the captured group cannot fail for these patterns, so
the Python `except ValueError: continue` is dead code.) -/
def is_sl_update_message (msg : List Char) : Option ℚ :=
  let m := py_lower msg
  orO (searchPos slUpdP1 none m) (orO (searchPos slUpdP2 none m)
    (orO (searchPos slUpdP3 none m) (orO (searchPos slUpdP4 none m)
      (searchPos slUpdP5 none m))))

/-- Shared tail `(num)\s*-\s*(num)` of the two range patterns (the leading
`\s*` after the `@` marker is included here). -/
def rangeTail (s : List Char) : Option (ℚ × ℚ) :=
  match matchNumber (spaces0 s) with
  | some (v1, s1) =>
    match lit [ '-' ] (spaces0 s1) with
    | some s2 =>
      match matchNumber (spaces0 s2) with
      | some (v2, _) => some (v1, v2)
      | none => none
    | none => none
  | none => none

/-- RANGE_PATTERNS[0]: `@\s*(num)\s*-\s*(num)`. -/
def rangeP1 (_ : Option Char) (s : List Char) : Option (ℚ × ℚ) :=
  match lit [ '@' ] s with
  | some s1 => rangeTail s1
  | none => none

/-- RANGE_PATTERNS[1]: `gold\s*@\s*(num)\s*-\s*(num)`. -/
def rangeP2 (_ : Option Char) (s : List Char) : Option (ℚ × ℚ) :=
  match lit (("gold").toList) s with
  | some s1 =>
    match lit [ '@' ] (spaces0 s1) with
    | some s2 => rangeTail s2
    | none => none
  | none => none

/-- ENTRY_PATTERNS[0]: `@\s*(num)`. -/
def entryP1 (_ : Option Char) (s : List Char) : Option ℚ :=
  match lit [ '@' ] s with
  | some s1 => (matchNumber (spaces0 s1)).map Prod.fst
  | none => none

/-- ENTRY_PATTERNS[1]: `(?:entry|enter)\s*:?\s*(num)`. -/
def entryP2 (_ : Option Char) (s : List Char) : Option ℚ :=
  tryAlts colonNum [lit (("entry").toList), lit (("enter").toList)] s

/-- ENTRY_PATTERNS[2]: `gold\s*@\s*(num)`. -/
def entryP3 (_ : Option Char) (s : List Char) : Option ℚ :=
  match lit (("gold").toList) s with
  | some s1 =>
    match lit [ '@' ] (spaces0 s1) with
    | some s2 => (matchNumber (spaces0 s2)).map Prod.fst
    | none => none
  | none => none

/-- SL_PATTERNS[0]: `(?:sl|stop\s*loss|stop)\s*:?\s*(num)`. -/
def slPat1 (_ : Option Char) (s : List Char) : Option ℚ :=
  tryAlts colonNum
    [lit (("sl").toList),
     fun s0 =>
       match lit (("stop").toList) s0 with
       | some s1 => lit (("loss").toList) (spaces0 s1)
       | none => none,
     lit (("stop").toList)] s

/-- SL_PATTERNS[1]: `(?:s\.?l\.?)\s*:?\s*(num)`. -/
def slPat2 (_ : Option Char) (s : List Char) : Option ℚ :=
  match lit [ 's' ] s with
  | some s1 =>
    match lit [ 'l' ] (optChar '.' s1) with
    | some s2 => colonNum (optChar '.' s2)
    | none => none
  | none => none

/-- Regex tail `\s*1?\s*:?\s*(num)` of TP_PATTERNS[0]; the `1?` is greedy
with backtracking, so `tp 1950` captures `950`. -/
def tpTail (s : List Char) : Option ℚ :=
  optCharThen '1' colonNum (spaces0 s)

/-- TP_PATTERNS[0]: `(?:tp|take\s*profit|target)\s*1?\s*:?\s*(num)`. -/
def tpPat1 (_ : Option Char) (s : List Char) : Option ℚ :=
  tryAlts tpTail
    [lit (("tp").toList),
     fun s0 =>
       match lit (("take").toList) s0 with
       | some s1 => lit (("profit").toList) (spaces0 s1)
       | none => none,
     lit (("target").toList)] s

/-- TP_PATTERNS[1]: `tp1\s*:?\s*(num)`. -/
def tpPat2 (_ : Option Char) (s : List Char) : Option ℚ :=
  match lit (("tp1").toList) s with
  | some s1 => colonNum s1
  | none => none

/-- Intermediate result of MessageProcessor._extract_entry_price (the Python
dict `{'type': 'range'|'single', ...}`). -/
inductive EntryData where
  | range (min_price max_price : ℚ)
  | single (price : ℚ)
deriving DecidableEq

/-- The TradeParams dataclass: trading parameters extracted from a message. -/
structure TradeParams where
  trade_type : String
  entry_price : Option ℚ := none
  entry_range : Option (ℚ × ℚ) := none
  stop_loss : ℚ := 0
  take_profit : Option ℚ := none
  raw_message : List Char := []
deriving DecidableEq

/-- TradeParams.is_range_entry. -/
def TradeParams.is_range_entry (p : TradeParams) : Bool := p.entry_range.isSome

/-- TradeParams.get_pending_price: resolve the concrete entry price from the
configured strategy (`entry_strategy.strip().lower()` for the non-`auto`
branches) and the `central_zone` offset.  For a non-range intent the Python
code returns `self.entry_price`, which is `None` when the field is unset;
the result is therefore an `Option`. -/
def TradeParams.get_pending_price (p : TradeParams) (entry_strategy : String) (central_zone : ℚ) : Option ℚ :=
  match p.entry_range with
  | some (min_p, max_p) =>
    let price :=
      if entry_strategy = "auto" then
        if p.trade_type = "buy" then min_p else max_p
      else
        let base := py_lower (py_strip entry_strategy.toList)
        if base = ("min").toList then
          if p.trade_type = "buy" then min_p else max_p
        else if base = ("max").toList then
          if p.trade_type = "buy" then max_p else min_p
        else
          if p.trade_type = "buy" then min_p else max_p
    let price2 :=
      if central_zone ≠ 0 then
        if p.trade_type = "buy" then price + central_zone else price - central_zone
      else price
    some price2
  | none => p.entry_price

/-- MessageProcessor._detect_trade_type: the `'buy'` pattern is tested before
the `'sell'` pattern (dict insertion order), first match wins. -/
def detect_trade_type (msg : List Char) : Option String :=
  if wordFound buyWords msg then some ("buy")
  else if wordFound sellWords msg then some ("sell")
  else none

/-- MessageProcessor._extract_entry_price: range patterns first (normalising
the two captured prices with min/max), then the single-price patterns. -/
def extract_entry_price (msg : List Char) : Option EntryData :=
  let m := py_lower msg
  match orO (searchPos rangeP1 none m) (searchPos rangeP2 none m) with
  | some (price1, price2) => some (EntryData.range (min price1 price2) (max price1 price2))
  | none =>
    match orO (searchPos entryP1 none m) (orO (searchPos entryP2 none m) (searchPos entryP3 none m)) with
    | some price => some (EntryData.single price)
    | none => none

/-- MessageProcessor._extract_stop_loss. -/
def extract_stop_loss (msg : List Char) : Option ℚ :=
  let m := py_lower msg
  orO (searchPos slPat1 none m) (searchPos slPat2 none m)

/-- MessageProcessor._extract_take_profit. -/
def extract_take_profit (msg : List Char) : Option ℚ :=
  let m := py_lower msg
  orO (searchPos tpPat1 none m) (searchPos tpPat2 none m)

/-- MessageProcessor.extract_parameters: empty and immediate-execution
messages are ignored; then type, entry, SL and TP are extracted, and
`if not entry_data or not stop_loss: return None` rejects a missing entry, a
missing SL, and (by Python falsiness of `0.0`) a zero SL. -/
def extract_parameters (msg : List Char) : Option TradeParams :=
  if msg.isEmpty then none
  else if is_immediate_execution_message msg then none
  else
    match detect_trade_type msg with
    | none => none
    | some tt =>
      match extract_entry_price msg, extract_stop_loss msg with
      | some entry_data, some sl =>
        if sl = 0 then none
        else
          match entry_data with
          | EntryData.range lo hi =>
            some { trade_type := tt, entry_range := some (lo, hi), stop_loss := sl,
                   take_profit := extract_take_profit msg, raw_message := msg }
          | EntryData.single price =>
            some { trade_type := tt, entry_price := some price, stop_loss := sl,
                   take_profit := extract_take_profit msg, raw_message := msg }
      | _, _ => none

/-- The four MT5 pending-order type constants the code can submit. -/
inductive OrderType where
  | buyLimit
  | buyStop
  | sellLimit
  | sellStop
deriving DecidableEq

/-- The order-flavor decision of MT5Manager.place_pending_order (lines
467-477): buy limit below / buy stop at-or-above the current price, sell
limit above / sell stop at-or-below; `current_price` is the ask for a buy
and the bid for a sell at the call site. -/
def pending_order_type (trade_type : String) (pending_price current_price : ℚ) : OrderType :=
  if trade_type = "buy" then
    if pending_price < current_price then OrderType.buyLimit else OrderType.buyStop
  else
    if pending_price > current_price then OrderType.sellLimit else OrderType.sellStop

/-- Venue symbol metadata consumed by the manager (`mt5.symbol_info`). -/
structure SymbolInfo where
  volume_min : ℚ
  trade_tick_value : ℚ
  trade_tick_size : ℚ
deriving DecidableEq

/-- Venue market state: the current tick (`mt5.symbol_info_tick`, bid/ask)
and the symbol metadata, each absent when the venue cannot answer. -/
structure MarketState where
  tick : Option (ℚ × ℚ)
  symbol_info : Option SymbolInfo

/-- The `trading` configuration section consumed by the core. -/
structure TradingConfig where
  symbol : String
  target_profit_usd : ℚ
  entry_strategy : String := "auto"
  central_zone : ℚ := 0

/-- MT5Manager.get_minimum_volume, with its `0.01` fallback. -/
def get_minimum_volume (mkt : MarketState) : ℚ :=
  match mkt.symbol_info with
  | some si => si.volume_min
  | none => mkRat 1 100

/-- MT5Manager.calculate_tp_for_profit: the price distance realising the
target profit is `target * tick_size / (tick_value * volume)`; a falsy
(zero) tick value or size falls back to `1.0` / `0.01` via Python `or`, and
a zero denominator raises ZeroDivisionError, caught as a `None` result. -/
def calculate_tp_for_profit (cfg : TradingConfig) (mkt : MarketState) (entry_price : ℚ) (trade_type : String) (volume : ℚ) : Option ℚ :=
  match mkt.symbol_info with
  | none => none
  | some si =>
    let tick_value := if si.trade_tick_value = 0 then 1 else si.trade_tick_value
    let tick_size := if si.trade_tick_size = 0 then mkRat 1 100 else si.trade_tick_size
    if tick_value * volume = 0 then none
    else
      let points_needed := cfg.target_profit_usd * tick_size / (tick_value * volume)
      some (if trade_type = "buy" then entry_price + points_needed else entry_price - points_needed)

/-- The pending-order request record submitted through `mt5.order_send`
(the price-relevant fields; the constant deviation/magic fields are kept,
the wall-clock expiration timestamp is outside the model). -/
structure OrderRequest where
  symbol : String
  volume : ℚ
  order_type : OrderType
  price : ℚ
  sl : ℚ
  tp : ℚ
  deviation : ℕ := 20
  magic : ℕ := 234007
deriving DecidableEq

/-- MT5Manager.place_pending_order, as the request it submits: `none` models
every failure return (no tick, no computable TP, falsy TP); when a
`pending_price` argument is not supplied the price is resolved from the
configured strategy.  A missing resolved price (single-price intent with the
field unset) raises in Python and is caught as a failure. -/
def place_pending_order (cfg : TradingConfig) (mkt : MarketState) (trade_params : TradeParams) (pending_price_arg : Option ℚ) : Option OrderRequest :=
  match mkt.tick with
  | none => none
  | some (bid, ask) =>
    let current_price := if trade_params.trade_type = "buy" then ask else bid
    let volume := get_minimum_volume mkt
    let pending_price :=
      match pending_price_arg with
      | some pp => some pp
      | none => trade_params.get_pending_price cfg.entry_strategy cfg.central_zone
    match pending_price with
    | none => none
    | some pp =>
      match calculate_tp_for_profit cfg mkt pp trade_params.trade_type volume with
      | none => none
      | some tp =>
        if tp = 0 then none
        else
          some { symbol := cfg.symbol, volume := volume,
                 order_type := pending_order_type trade_params.trade_type pp current_price,
                 price := pp, sl := trade_params.stop_loss, tp := tp }

/-- An open position reported by `mt5.positions_get(symbol=...)`, together
with the venue's response to the SL modification the code sends for it
(`mod_ok` is true when `order_send` returns retcode `TRADE_RETCODE_DONE`). -/
structure VenuePosition where
  ticket : ℕ
  tp : ℚ
  mod_ok : Bool
deriving DecidableEq

/-- A working pending order reported by `mt5.orders_get(symbol=...)`, with
the venue's response to its SL modification. -/
structure VenueOrder where
  ticket : ℕ
  price_open : ℚ
  tp : ℚ
  mod_ok : Bool
deriving DecidableEq

/-- A modification request sent by MT5Manager.update_pending_order_sl:
`TRADE_ACTION_SLTP` for a position (no price), `TRADE_ACTION_MODIFY` for a
pending order (re-supplying `price_open`). -/
structure ModRequest where
  modifies_position : Bool
  ticket : ℕ
  sl : ℚ
  tp : ℚ
  price : Option ℚ
deriving DecidableEq

/-- The request update_pending_order_sl sends for one open position. -/
def position_sl_request (new_sl : ℚ) (p : VenuePosition) : ModRequest :=
  { modifies_position := true, ticket := p.ticket, sl := new_sl, tp := p.tp, price := none }

/-- The request update_pending_order_sl sends for one working order. -/
def order_sl_request (new_sl : ℚ) (o : VenueOrder) : ModRequest :=
  { modifies_position := false, ticket := o.ticket, sl := new_sl, tp := o.tp, price := some o.price_open }

/-- MT5Manager.update_pending_order_sl: phase one walks every open position,
phase two walks every working order (unconditionally — the `if not
positions` of the comment is not in the code), `updated_count` counts the
modifications the venue accepted, and the boolean result is
`updated_count > 0`.  Returns the list of requests sent and the result. -/
def update_pending_order_sl (new_sl : ℚ) (positions : List VenuePosition) (orders : List VenueOrder) : List ModRequest × Bool :=
  let position_requests := positions.map (position_sl_request new_sl)
  let pending_requests := orders.map (order_sl_request new_sl)
  let updated_count := positions.countP (fun p => p.mod_ok) + orders.countP (fun o => o.mod_ok)
  (position_requests ++ pending_requests, decide (0 < updated_count))

/-- The PendingOrder dataclass tracked in MT5Manager.pending_orders
(timestamp as an abstract tick count). -/
structure PendingOrder where
  ticket : ℕ
  symbol : String
  trade_type : String
  entry_price : ℚ
  stop_loss : ℚ
  take_profit : ℚ
  volume : ℚ
  timestamp : ℕ
  is_activated : Bool := false
deriving DecidableEq

/-- MT5Manager.cleanup_expired_orders: one reconciliation sweep over the
registry.  `order_exists t` / `position_exists t` model whether
`mt5.orders_get(ticket=t)` / `mt5.positions_get(ticket=t)` report anything.
An entry found as a position is retained with `is_activated := true`; an
entry found only as a working order is retained unchanged; an entry found
as neither is dropped. -/
def cleanup_expired_orders (order_exists position_exists : ℕ → Bool) : List PendingOrder → List PendingOrder
  | [] => []
  | o :: rest =>
    if order_exists o.ticket || position_exists o.ticket then
      (if position_exists o.ticket then { o with is_activated := true } else o) ::
        cleanup_expired_orders order_exists position_exists rest
    else
      cleanup_expired_orders order_exists position_exists rest

/-- The route TradingBot._process_message takes for one message. -/
inductive ProcResult where
  | slUpdate (new_sl : ℚ)
  | newOrder (params : TradeParams)
  | notActionable
deriving DecidableEq

/-- TradingBot._process_message, as the route it takes: the SL-update check
runs first (`if new_sl:` — Python falsiness, so a parsed value of `0.0`
falls through), and only when it does not fire is `extract_parameters`
consulted for a new pending order. -/
def process_message (msg : List Char) : ProcResult :=
  match is_sl_update_message msg with
  | some new_sl =>
    if new_sl = 0 then
      match extract_parameters msg with
      | some params => ProcResult.newOrder params
      | none => ProcResult.notActionable
    else ProcResult.slUpdate new_sl
  | none =>
    match extract_parameters msg with
    | some params => ProcResult.newOrder params
    | none => ProcResult.notActionable

/-- A property of every value a position matcher can produce is a property
of every value `searchPos` can produce. -/
theorem searchPos_prop {α : Type} (f : Option Char → List Char → Option α) (P : α → Prop)
    (hf : ∀ prev s a, f prev s = some a → P a) :
    ∀ (prev : Option Char) (s : List Char) (a : α), searchPos f prev s = some a → P a := by
  intro prev s
  induction s generalizing prev with
  | nil =>
    intro a h
    rw [searchPos] at h
    exact hf prev [] a h
  | cons c rest ih =>
    intro a h
    rw [searchPos] at h
    cases hfc : f prev (c :: rest) with
    | some b =>
      simp only [hfc] at h
      cases h
      exact hf prev (c :: rest) _ hfc
    | none =>
      simp only [hfc] at h
      exact ih (some c) a h

/-- A property of every value the continuation produces is a property of
every value the alternation produces. -/
theorem tryAlts_prop {α : Type} (k : List Char → Option α) (P : α → Prop)
    (hk : ∀ s a, k s = some a → P a) :
    ∀ (bs : List (List Char → Option (List Char))) (s : List Char) (a : α),
      tryAlts k bs s = some a → P a := by
  intro bs
  induction bs with
  | nil => intro s a h; rw [tryAlts] at h; cases h
  | cons b rest ih =>
    intro s a h
    rw [tryAlts] at h
    cases hb : b s with
    | some s2 =>
      simp only [hb] at h
      cases hks : k s2 with
      | some a2 => simp only [hks] at h; cases h; exact hk s2 _ hks
      | none => simp only [hks] at h; exact ih s a h
    | none =>
      simp only [hb] at h
      exact ih s a h

/-- A property of every value the continuation produces is a property of
every value a word sequence followed by the continuation produces. -/
theorem seqWords_prop {α : Type} (k : List Char → Option α) (P : α → Prop)
    (hk : ∀ s a, k s = some a → P a) :
    ∀ (ws : List (List Char)) (s : List Char) (a : α), seqWords k ws s = some a → P a := by
  intro ws
  induction ws with
  | nil => intro s a h; rw [seqWords] at h; exact hk s a h
  | cons w rest ih =>
    intro s a h
    rw [seqWords] at h
    cases hl : lit w s with
    | some s1 =>
      simp only [hl] at h
      cases hsp : spaces1 s1 with
      | some s2 => simp only [hsp] at h; exact ih s2 a h
      | none => simp only [hsp] at h; cases h
    | none => simp only [hl] at h; cases h

/-- Every parsed numeric token is nonnegative. -/
theorem ratNum_nonneg (intPart fracPart : List Char) : 0 ≤ ratNum intPart fracPart := by
  unfold ratNum
  rw [Rat.mkRat_eq_div]
  apply div_nonneg
  · exact_mod_cast Int.ofNat_nonneg _
  · exact_mod_cast Nat.zero_le _

/-- Values produced by `matchNumber` are nonnegative. -/
theorem matchNumber_nonneg (s : List Char) (v : ℚ) (rest : List Char)
    (h : matchNumber s = some (v, rest)) : 0 ≤ v := by
  unfold matchNumber at h
  by_cases he : (s.takeWhile Char.isDigit).isEmpty
  · simp [he] at h
  · simp only [he, if_false, Bool.false_eq_true] at h
    cases hd : s.drop (s.takeWhile Char.isDigit).length with
    | nil => simp only [hd] at h; cases h; exact ratNum_nonneg _ _
    | cons c r2 =>
      simp only [hd] at h
      by_cases hc : c = '.'
      · simp only [hc, if_pos rfl] at h; cases h; exact ratNum_nonneg _ _
      · simp only [if_neg hc] at h; cases h; exact ratNum_nonneg _ _

/-- Values produced by the shared `\s*:?\s*(num)` tail are nonnegative. -/
theorem colonNum_nonneg (s : List Char) (v : ℚ) (h : colonNum s = some v) : 0 ≤ v := by
  unfold colonNum at h
  cases hn : matchNumber (spaces0 (optChar ':' (spaces0 s))) with
  | none => simp only [hn, Option.map_none'] at h; cases h
  | some pr =>
    simp only [hn, Option.map_some'] at h
    cases h
    exact matchNumber_nonneg _ _ _ hn

/-- Values produced by the first SL pattern are nonnegative. -/
theorem slPat1_nonneg (prev : Option Char) (s : List Char) (v : ℚ)
    (h : slPat1 prev s = some v) : 0 ≤ v := by
  unfold slPat1 at h
  exact tryAlts_prop colonNum (fun x => 0 ≤ x) (fun s a ha => colonNum_nonneg s a ha) _ s v h

/-- Values produced by the second SL pattern are nonnegative. -/
theorem slPat2_nonneg (prev : Option Char) (s : List Char) (v : ℚ)
    (h : slPat2 prev s = some v) : 0 ≤ v := by
  unfold slPat2 at h
  cases h1 : lit [ 's' ] s with
  | none => simp only [h1] at h; cases h
  | some s1 =>
    simp only [h1] at h
    cases h2 : lit [ 'l' ] (optChar '.' s1) with
    | none => simp only [h2] at h; cases h
    | some s2 =>
      simp only [h2] at h
      exact colonNum_nonneg _ _ h

/-- Every stop loss the extractor reads out of a message is nonnegative. -/
theorem extract_stop_loss_nonneg (msg : List Char) (v : ℚ)
    (h : extract_stop_loss msg = some v) : 0 ≤ v := by
  unfold extract_stop_loss orO at h
  simp only at h
  cases h1 : searchPos slPat1 none (py_lower msg) with
  | some x =>
    simp only [h1] at h
    cases h
    exact searchPos_prop slPat1 (fun x => 0 ≤ x) slPat1_nonneg none _ _ h1
  | none =>
    simp only [h1] at h
    exact searchPos_prop slPat2 (fun x => 0 ≤ x) slPat2_nonneg none _ v h

/-- A trade intent with a range entry, for stating pricing properties. -/
def range_params (tt : String) (lo hi sl : ℚ) : TradeParams :=
  { trade_type := tt, entry_range := some (lo, hi), stop_loss := sl }

/-- A trade intent with a single-price entry, for stating pricing properties. -/
def single_params (tt : String) (price sl : ℚ) : TradeParams :=
  { trade_type := tt, entry_price := some price, stop_loss := sl }

/-- C4: get_pending_price returns a single-price entry unchanged for every
strategy and offset; on a range with zero offset, strategies `auto` and
`min` resolve to the low bound for a buy and the high bound for a sell,
strategy `max` resolves to the high bound for a buy and the low bound for a
sell; and any strategy string that strips-and-lowercases to neither `min`
nor `max` behaves exactly like `auto`. -/
theorem resolve_entry_policy_table :
    (∀ (tt strat : String) (price sl c : ℚ),
      (single_params tt price sl).get_pending_price strat c = some price) ∧
    (∀ lo hi sl : ℚ,
      (range_params ("buy") lo hi sl).get_pending_price "auto" 0 = some lo ∧
      (range_params ("buy") lo hi sl).get_pending_price "min" 0 = some lo ∧
      (range_params ("buy") lo hi sl).get_pending_price "max" 0 = some hi ∧
      (range_params ("sell") lo hi sl).get_pending_price "auto" 0 = some hi ∧
      (range_params ("sell") lo hi sl).get_pending_price "min" 0 = some hi ∧
      (range_params ("sell") lo hi sl).get_pending_price "max" 0 = some lo) ∧
    (∀ strat : String,
      py_lower (py_strip strat.toList) ≠ ("min").toList →
      py_lower (py_strip strat.toList) ≠ ("max").toList →
      ∀ (tt : String) (lo hi sl c : ℚ),
        (range_params tt lo hi sl).get_pending_price strat c =
          (range_params tt lo hi sl).get_pending_price "auto" c) := by
  refine ⟨fun tt strat price sl c => rfl, fun lo hi sl => ⟨rfl, rfl, rfl, rfl, rfl, rfl⟩, ?_⟩
  intro strat h1 h2 tt lo hi sl c
  by_cases ha : strat = "auto"
  · subst ha; rfl
  · simp only [TradeParams.get_pending_price, range_params, if_neg ha, if_neg h1, if_neg h2]
    simp

/-- Closed instance of the fallback clause of C4: the unrecognised strategy
string `median` resolves exactly like `auto`. -/
theorem resolve_entry_policy_table_witness :
    (py_lower (py_strip (("median").toList)) ≠ ("min").toList) ∧
    (py_lower (py_strip (("median").toList)) ≠ ("max").toList) ∧
    (range_params ("buy") 1900 1920 1890).get_pending_price "median" 3 =
      (range_params ("buy") 1900 1920 1890).get_pending_price "auto" 3 :=
  ⟨by decide, by decide,
    resolve_entry_policy_table.2.2 "median" (by decide) (by decide) "buy" 1900 1920 1890 3⟩

/-- C5: on a range intent, resolving with offset `c` equals the zero-offset
resolution shifted by `+c` for a buy and `-c` for a sell, for every
strategy; with `c = 0` the offset step is a no-op. -/
theorem central_zone_offset_shift (strat : String) (lo hi sl c : ℚ) :
    (range_params ("buy") lo hi sl).get_pending_price strat c =
      ((range_params ("buy") lo hi sl).get_pending_price strat 0).map (fun x => x + c) ∧
    (range_params ("sell") lo hi sl).get_pending_price strat c =
      ((range_params ("sell") lo hi sl).get_pending_price strat 0).map (fun x => x - c) := by
  constructor
  · by_cases hc : c = 0
    · subst hc
      simp [TradeParams.get_pending_price, range_params]
    · simp [TradeParams.get_pending_price, range_params, hc]
  · by_cases hc : c = 0
    · subst hc
      simp [TradeParams.get_pending_price, range_params]
    · simp [TradeParams.get_pending_price, range_params, hc]

/-- C6: the pending-order flavor used by place_pending_order: a buy strictly
below the ask is a buy limit, at or above the ask a buy stop; a sell
strictly above the bid is a sell limit, at or below the bid a sell stop. -/
theorem pending_flavor_classification (entry bid ask : ℚ) :
    (entry < ask → pending_order_type ("buy") entry ask = OrderType.buyLimit) ∧
    (ask ≤ entry → pending_order_type ("buy") entry ask = OrderType.buyStop) ∧
    (bid < entry → pending_order_type ("sell") entry bid = OrderType.sellLimit) ∧
    (entry ≤ bid → pending_order_type ("sell") entry bid = OrderType.sellStop) := by
  refine ⟨?_, ?_, ?_, ?_⟩
  · intro h; simp [pending_order_type, h]
  · intro h; simp [pending_order_type, not_lt.mpr h]
  · intro h; simp [pending_order_type, h]
  · intro h; simp [pending_order_type, not_lt.mpr h]

/-- Closed instance of C6 at the spec's example prices: buy entry 1895
against ask 1900 is a limit, buy entry 1905 against ask 1900 is a stop, and
symmetrically for sells against the bid. -/
theorem pending_flavor_classification_witness :
    pending_order_type ("buy") 1895 1900 = OrderType.buyLimit ∧
    pending_order_type ("buy") 1905 1900 = OrderType.buyStop ∧
    pending_order_type ("sell") 1905 1900 = OrderType.sellLimit ∧
    pending_order_type ("sell") 1895 1900 = OrderType.sellStop :=
  ⟨(pending_flavor_classification 1895 0 1900).1 (by norm_num),
   (pending_flavor_classification 1905 0 1900).2.1 (by norm_num),
   (pending_flavor_classification 1905 1900 0).2.2.1 (by norm_num),
   (pending_flavor_classification 1895 1900 0).2.2.2 (by norm_num)⟩

/-- C3 counterexample: one open position exists for the symbol, but the
venue rejects its modification, and update_pending_order_sl returns
failure — so failure is not equivalent to "zero tickets exist".  (The
remaining parts of the claim do hold; see the amended theorem.) -/
theorem update_sl_counterexample :
    ([{ ticket := 1, tp := 1950, mod_ok := false }] : List VenuePosition) ≠ [] ∧
    (update_pending_order_sl 1900 [{ ticket := 1, tp := 1950, mod_ok := false }] []).2 = false :=
  ⟨by decide, by decide⟩

/-- C3 as amended: update_pending_order_sl succeeds exactly when at least
one individual modification was accepted by the venue (so zero tickets
still implies failure, but existing tickets whose modifications all fail
also yield failure); and a modification request is issued for every open
position and for every working order, regardless of the other phase's
outcome or of earlier per-ticket failures. -/
theorem update_sl_spec (new_sl : ℚ) (positions : List VenuePosition) (orders : List VenueOrder) :
    ((update_pending_order_sl new_sl positions orders).2 = true ↔
      ((∃ p ∈ positions, p.mod_ok = true) ∨ (∃ o ∈ orders, o.mod_ok = true))) ∧
    (∀ p ∈ positions,
      position_sl_request new_sl p ∈ (update_pending_order_sl new_sl positions orders).1) ∧
    (∀ o ∈ orders,
      order_sl_request new_sl o ∈ (update_pending_order_sl new_sl positions orders).1) := by
  refine ⟨?_, ?_, ?_⟩
  · unfold update_pending_order_sl
    simp only [decide_eq_true_eq]
    rw [add_pos_iff, List.countP_pos_iff, List.countP_pos_iff]
  · intro p hp
    unfold update_pending_order_sl
    exact List.mem_append_left _ (List.mem_map_of_mem _ hp)
  · intro o ho
    unfold update_pending_order_sl
    exact List.mem_append_right _ (List.mem_map_of_mem _ ho)

/-- Closed instance of the amended C3: with one accepted position
modification and one rejected order modification, the order's request is
still issued (second phase runs despite the first phase's success) and the
overall result is success. -/
theorem update_sl_spec_witness :
    order_sl_request 1900 { ticket := 2, price_open := 1905, tp := 1950, mod_ok := false } ∈
      (update_pending_order_sl 1900 [{ ticket := 1, tp := 1950, mod_ok := true }]
        [{ ticket := 2, price_open := 1905, tp := 1950, mod_ok := false }]).1 ∧
    (update_pending_order_sl 1900 [{ ticket := 1, tp := 1950, mod_ok := true }]
      [{ ticket := 2, price_open := 1905, tp := 1950, mod_ok := false }]).2 = true :=
  ⟨(update_sl_spec 1900 _ _).2.2 _ (by decide),
   (update_sl_spec 1900 [{ ticket := 1, tp := 1950, mod_ok := true }]
      [{ ticket := 2, price_open := 1905, tp := 1950, mod_ok := false }]).1.mpr
    (Or.inl ⟨{ ticket := 1, tp := 1950, mod_ok := true }, by decide, rfl⟩)⟩

/-- One reconciliation sweep is a filterMap over the registry: entries found
nowhere are dropped, entries found as positions are marked activated,
entries found only as working orders pass through unchanged. -/
theorem cleanup_expired_orders_eq (oe pe : ℕ → Bool) (reg : List PendingOrder) :
    cleanup_expired_orders oe pe reg = reg.filterMap (fun o =>
      if oe o.ticket || pe o.ticket then
        some (if pe o.ticket then { o with is_activated := true } else o)
      else none) := by
  induction reg with
  | nil => rfl
  | cons o rest ih =>
    rw [cleanup_expired_orders, List.filterMap_cons]
    by_cases h : (oe o.ticket || pe o.ticket) = true
    · simp only [h, if_true, if_pos h, ih]
    · simp only [h, if_neg h, ih]
      simp at h
      simp [h]

/-- C7: in one reconciliation sweep, every surviving entry is backed by a
venue-reported working order or position; every registry entry reported as
a position survives with activated set true; every entry reported only as a
working order survives unchanged (so its activated flag is left false when
it was false); and every entry of the result arises from exactly one of
those two rules applied to an entry of the input registry, so no other
entry is changed. -/
theorem reconcile_sweep_spec (oe pe : ℕ → Bool) (reg : List PendingOrder) :
    (∀ o ∈ cleanup_expired_orders oe pe reg, oe o.ticket = true ∨ pe o.ticket = true) ∧
    (∀ o ∈ reg, pe o.ticket = true →
      { o with is_activated := true } ∈ cleanup_expired_orders oe pe reg) ∧
    (∀ o ∈ reg, oe o.ticket = true → pe o.ticket = false →
      o ∈ cleanup_expired_orders oe pe reg) ∧
    (∀ o ∈ cleanup_expired_orders oe pe reg, ∃ o' ∈ reg,
      (pe o'.ticket = true ∧ o = { o' with is_activated := true }) ∨
      (pe o'.ticket = false ∧ oe o'.ticket = true ∧ o = o')) := by
  rw [cleanup_expired_orders_eq]
  refine ⟨?_, ?_, ?_, ?_⟩
  · intro o ho
    obtain ⟨o', ho', heq⟩ := List.mem_filterMap.mp ho
    by_cases hb : (oe o'.ticket || pe o'.ticket) = true
    · rw [if_pos hb] at heq
      cases heq
      by_cases hp : pe o'.ticket = true
      · right; simp [hp]
      · left
        simp only [Bool.or_eq_true] at hb
        rcases hb with hb | hb
        · simp [hp, hb]
        · exact absurd hb hp
    · rw [if_neg hb] at heq; cases heq
  · intro o ho hp
    refine List.mem_filterMap.mpr ⟨o, ho, ?_⟩
    rw [if_pos (by simp [hp]), if_pos hp]
  · intro o ho hoe hp
    refine List.mem_filterMap.mpr ⟨o, ho, ?_⟩
    rw [if_pos (by simp [hoe]), if_neg (by simp [hp])]
  · intro o ho
    obtain ⟨o', ho', heq⟩ := List.mem_filterMap.mp ho
    by_cases hb : (oe o'.ticket || pe o'.ticket) = true
    · rw [if_pos hb] at heq
      cases heq
      refine ⟨o', ho', ?_⟩
      by_cases hp : pe o'.ticket = true
      · left; exact ⟨hp, by simp [hp]⟩
      · right
        simp only [Bool.or_eq_true] at hb
        rcases hb with hb | hb
        · exact ⟨by simp [hp], hb, by simp [hp]⟩
        · exact absurd hb hp
    · rw [if_neg hb] at heq; cases heq

/-- A tracked order for exercising the reconciliation sweep. -/
def demo_tracked (t : ℕ) : PendingOrder :=
  { ticket := t, symbol := "XAUUSD", trade_type := "buy", entry_price := 1900,
    stop_loss := 1890, take_profit := 1910, volume := 1, timestamp := 0 }

/-- Closed instance of C7: with ticket 1 reported as a working order and
ticket 2 reported as a position (ticket 3 reported nowhere), the sweep keeps
ticket 1 unchanged and keeps ticket 2 with activated set true. -/
theorem reconcile_sweep_spec_witness :
    { demo_tracked 2 with is_activated := true } ∈
      cleanup_expired_orders (fun t => decide (t = 1)) (fun t => decide (t = 2))
        [demo_tracked 1, demo_tracked 2, demo_tracked 3] ∧
    demo_tracked 1 ∈
      cleanup_expired_orders (fun t => decide (t = 1)) (fun t => decide (t = 2))
        [demo_tracked 1, demo_tracked 2, demo_tracked 3] :=
  ⟨(reconcile_sweep_spec _ _ _).2.1 (demo_tracked 2) (by decide) (by decide),
   (reconcile_sweep_spec _ _ _).2.2.1 (demo_tracked 1) (by decide) (by decide) (by decide)⟩

/-- The trade type of any extracted intent is exactly what side detection
returned for the message. -/
theorem extract_parameters_trade_type (msg : List Char) (p : TradeParams)
    (h : extract_parameters msg = some p) : detect_trade_type msg = some p.trade_type := by
  unfold extract_parameters at h
  cases he : msg.isEmpty with
  | true => rw [he] at h; simp at h
  | false =>
    rw [he] at h
    cases hi : is_immediate_execution_message msg with
    | true => rw [hi] at h; simp at h
    | false =>
      rw [hi] at h
      simp only [Bool.false_eq_true, if_false] at h
      cases hd : detect_trade_type msg with
      | none => simp only [hd] at h; cases h
      | some tt =>
        simp only [hd] at h
        cases hE : extract_entry_price msg with
        | none => simp only [hE] at h; cases h
        | some ed =>
          simp only [hE] at h
          cases hS : extract_stop_loss msg with
          | none => simp only [hS] at h; cases h
          | some sl =>
            simp only [hS] at h
            by_cases hz : sl = 0
            · rw [if_pos hz] at h; cases h
            · rw [if_neg hz] at h
              cases ed with
              | range lo hi => cases h; rfl
              | single price => cases h; rfl

/-- C1 counterexample: the message `scalping buy sl to 1900` matches an
immediate-execution idiom, yet message processing routes it to the
SL-update path instead of discarding it — the SL-update check runs before
the immediate-execution filter ever fires. -/
theorem immediate_filter_counterexample :
    is_immediate_execution_message (("scalping buy sl to 1900").toList) = true ∧
    process_message (("scalping buy sl to 1900").toList) = ProcResult.slUpdate 1900 :=
  ⟨by decide, by decide⟩

/-- C1 as amended: for every message matching an immediate-execution idiom,
`extract_parameters` returns None regardless of co-occurring entry or SL
tokens; but SL-update detection takes precedence over the immediate filter
in message processing, so such a message is discarded only when no
SL-update phrasing with a nonzero value matches. -/
theorem immediate_filter_amended (msg : List Char)
    (h : is_immediate_execution_message msg = true) :
    extract_parameters msg = none ∧
    (∀ v : ℚ, is_sl_update_message msg = some v → v ≠ 0 →
      process_message msg = ProcResult.slUpdate v) ∧
    ((is_sl_update_message msg = none ∨ is_sl_update_message msg = some 0) →
      process_message msg = ProcResult.notActionable) := by
  have hx : extract_parameters msg = none := by
    unfold extract_parameters
    cases he : msg.isEmpty with
    | true => simp
    | false => simp [h]
  refine ⟨hx, ?_, ?_⟩
  · intro v hv hvz
    unfold process_message
    simp only [hv]
    rw [if_neg hvz]
  · intro hc
    unfold process_message
    rcases hc with hn | h0
    · simp only [hn, hx]
    · simp only [h0, hx]
      simp

/-- Closed instance of the amended C1: `scalping buy` matches an immediate
idiom and no SL-update phrasing, so extraction yields nothing and the
message is discarded. -/
theorem immediate_filter_amended_witness :
    extract_parameters (("scalping buy").toList) = none ∧
    process_message (("scalping buy").toList) = ProcResult.notActionable :=
  ⟨(immediate_filter_amended (("scalping buy").toList) (by decide)).1,
   (immediate_filter_amended (("scalping buy").toList) (by decide)).2.2 (Or.inl (by decide))⟩

/-- C2: whenever a message matches an SL-update phrasing with a positive
captured value, processing takes the SL-update path and never the new-order
path — in particular this holds when the message also carries full
trade-intent tokens, since extraction is simply not reached. -/
theorem sl_update_precedence (msg : List Char) (v : ℚ)
    (h : is_sl_update_message msg = some v) (hv : 0 < v) :
    process_message msg = ProcResult.slUpdate v ∧
    ∀ p : TradeParams, process_message msg ≠ ProcResult.newOrder p := by
  have hmain : process_message msg = ProcResult.slUpdate v := by
    unfold process_message
    simp only [h]
    rw [if_neg hv.ne']
  exact ⟨hmain, fun p hp => by rw [hmain] at hp; cases hp⟩

/-- Closed instance of C2: a message carrying a full trade intent (side
`buy`, entry 1905, SL 1890) together with `move sl to 1895` is processed as
an SL update with the captured value. -/
theorem sl_update_precedence_witness :
    process_message (("buy @1905 sl 1890 move sl to 1895").toList) = ProcResult.slUpdate 1895 :=
  (sl_update_precedence (("buy @1905 sl 1890 move sl to 1895").toList) 1895 (by decide)
    (by norm_num)).1

/-- C10: when a message contains whole-word hits from both the long and the
short vocabulary, side detection returns `buy` (the long pattern is tested
first), and any intent extracted from the message is a buy. -/
theorem side_detection_buy_first (msg : List Char)
    (hb : wordFound buyWords msg = true) (hs : wordFound sellWords msg = true) :
    detect_trade_type msg = some ("buy") ∧
    ∀ p : TradeParams, extract_parameters msg = some p → p.trade_type = "buy" := by
  have hd : detect_trade_type msg = some ("buy") := by
    unfold detect_trade_type
    rw [if_pos hb]
  refine ⟨hd, ?_⟩
  intro p hp
  have h2 := extract_parameters_trade_type msg p hp
  rw [hd] at h2
  exact (Option.some_inj.mp h2).symm

/-- Closed instance of C10: `buy sell @1905 sl 1890` hits both vocabularies
and is extracted as a buy intent. -/
theorem side_detection_buy_first_witness :
    detect_trade_type (("buy sell @1905 sl 1890").toList) = some ("buy") ∧
    ({ trade_type := "buy", entry_price := some 1905, stop_loss := 1890,
       raw_message := ("buy sell @1905 sl 1890").toList } : TradeParams).trade_type = "buy" :=
  ⟨(side_detection_buy_first (("buy sell @1905 sl 1890").toList) (by decide) (by decide)).1,
   (side_detection_buy_first (("buy sell @1905 sl 1890").toList) (by decide) (by decide)).2 _
    (by decide)⟩

/-- A range produced by entry extraction is normalised: low bound at most
high bound (the two captured prices go through min/max). -/
theorem extract_entry_price_range_le (msg : List Char) (lo hi : ℚ)
    (h : extract_entry_price msg = some (EntryData.range lo hi)) : lo ≤ hi := by
  unfold extract_entry_price at h
  simp only at h
  cases hR : orO (searchPos rangeP1 none (py_lower msg)) (searchPos rangeP2 none (py_lower msg)) with
  | some pr =>
    obtain ⟨p1, p2⟩ := pr
    simp only [hR] at h
    cases h
    exact min_le_max
  | none =>
    simp only [hR] at h
    cases hE2 : orO (searchPos entryP1 none (py_lower msg))
        (orO (searchPos entryP2 none (py_lower msg)) (searchPos entryP3 none (py_lower msg))) with
    | some price => simp only [hE2] at h; cases h
    | none => simp only [hE2] at h; cases h

/-- C9: every intent the extractor returns satisfies the data-model
invariant — exactly one of the single entry price and the entry range is
set, the stop loss is strictly positive, and a range is normalised with its
low bound at most its high bound. -/
theorem trade_intent_invariants (msg : List Char) (p : TradeParams)
    (h : extract_parameters msg = some p) :
    ((p.entry_price = none ∧ p.entry_range.isSome = true) ∨
      (p.entry_price.isSome = true ∧ p.entry_range = none)) ∧
    0 < p.stop_loss ∧
    (∀ lo hi : ℚ, p.entry_range = some (lo, hi) → lo ≤ hi) := by
  unfold extract_parameters at h
  cases he : msg.isEmpty with
  | true => rw [he] at h; simp at h
  | false =>
    rw [he] at h
    cases hi : is_immediate_execution_message msg with
    | true => rw [hi] at h; simp at h
    | false =>
      rw [hi] at h
      simp only [Bool.false_eq_true, if_false] at h
      cases hd : detect_trade_type msg with
      | none => simp only [hd] at h; cases h
      | some tt =>
        simp only [hd] at h
        cases hE : extract_entry_price msg with
        | none => simp only [hE] at h; cases h
        | some ed =>
          simp only [hE] at h
          cases hS : extract_stop_loss msg with
          | none => simp only [hS] at h; cases h
          | some sl =>
            simp only [hS] at h
            by_cases hz : sl = 0
            · rw [if_pos hz] at h; cases h
            · rw [if_neg hz] at h
              have hpos : 0 < sl :=
                lt_of_le_of_ne (extract_stop_loss_nonneg msg sl hS) (Ne.symm hz)
              cases ed with
              | range lo hi =>
                cases h
                refine ⟨Or.inl ⟨rfl, rfl⟩, hpos, ?_⟩
                intro lo' hi' hr
                rw [Option.some_inj] at hr
                cases hr
                exact extract_entry_price_range_le msg lo hi hE
              | single price =>
                cases h
                exact ⟨Or.inr ⟨rfl, rfl⟩, hpos, fun lo hi hr => by cases hr⟩

/-- The message of the C9 witness run. -/
def c9_msg : List Char := ("buy @1900-1920 sl 1890").toList

/-- The intent the extractor returns for the C9 witness message. -/
def c9_params : TradeParams :=
  { trade_type := "buy", entry_range := some (1900, 1920), stop_loss := 1890,
    raw_message := c9_msg }

/-- Closed instance of C9 on a concrete range message. -/
theorem trade_intent_invariants_witness :
    ((c9_params.entry_price = none ∧ c9_params.entry_range.isSome = true) ∨
      (c9_params.entry_price.isSome = true ∧ c9_params.entry_range = none)) ∧
    0 < c9_params.stop_loss ∧
    (1900 : ℚ) ≤ 1920 :=
  ⟨(trade_intent_invariants c9_msg c9_params (by decide)).1,
   (trade_intent_invariants c9_msg c9_params (by decide)).2.1,
   (trade_intent_invariants c9_msg c9_params (by decide)).2.2 1900 1920 rfl⟩

/-- The input text of the C8 end-to-end scenario. -/
def c8_msg : List Char := ("GOLD BUY @1900-1920 SL 1890 TP 1950").toList

/-- The intent extracted from the C8 text (the TP hint captured by the
greedy `1?` of the TP pattern is `950`; it is informational only and never
used for execution). -/
def c8_params : TradeParams :=
  { trade_type := "buy", entry_range := some (1900, 1920), stop_loss := 1890,
    take_profit := some 950, raw_message := c8_msg }

/-- C8: end to end, `GOLD BUY @1900-1920 SL 1890 TP 1950` is extracted as a
buy with range (1900, 1920) and stop loss 1890; under policy
(auto, offset 0) the resolved entry is 1900; processing routes it to the
new-order path; and the submitted request carries that entry together with
a take profit computed from the target profit and tick metadata — not the
parsed hint 1950. -/
theorem end_to_end_range_signal :
    extract_parameters c8_msg = some c8_params ∧
    c8_params.get_pending_price "auto" 0 = some 1900 ∧
    process_message c8_msg = ProcResult.newOrder c8_params ∧
    (∀ (sym : String) (target tv ts vol bid ask : ℚ), tv ≠ 0 → ts ≠ 0 → vol ≠ 0 →
      1900 + target * ts / (tv * vol) ≠ 0 →
      place_pending_order { symbol := sym, target_profit_usd := target }
          { tick := some (bid, ask),
            symbol_info := some { volume_min := vol, trade_tick_value := tv, trade_tick_size := ts } }
          c8_params (some 1900) =
        some { symbol := sym, volume := vol,
               order_type := pending_order_type ("buy") 1900 ask,
               price := 1900, sl := 1890, tp := 1900 + target * ts / (tv * vol) }) := by
  refine ⟨by decide, rfl, by decide, ?_⟩
  intro sym target tv ts vol bid ask htv hts hvol htp
  unfold place_pending_order calculate_tp_for_profit get_minimum_volume
  simp only [c8_params, if_neg htv, if_neg hts, if_neg (mul_ne_zero htv hvol), if_true]
  rw [if_neg htp]

/-- Closed instance of the submission clause of C8: with target profit 5,
tick value 1, tick size 1 and volume 1, the submitted request uses entry
1900, the parsed stop loss 1890, and the computed take profit — not 1950. -/
theorem end_to_end_range_signal_witness :
    ((1 : ℚ) ≠ 0) ∧
    place_pending_order { symbol := "XAUUSD", target_profit_usd := 5 }
        { tick := some (1898, 1900),
          symbol_info := some { volume_min := 1, trade_tick_value := 1, trade_tick_size := 1 } }
        c8_params (some 1900) =
      some { symbol := "XAUUSD", volume := 1,
             order_type := pending_order_type ("buy") 1900 1900,
             price := 1900, sl := 1890, tp := 1900 + 5 * 1 / (1 * 1) } :=
  ⟨by norm_num,
   end_to_end_range_signal.2.2.2 "XAUUSD" 5 1 1 1 1898 1900 (by norm_num) (by norm_num)
    (by norm_num) (by norm_num)⟩
